import Mathlib

/-!
Verification of the CoreShare chatbot tester (`chatbot_tester.py`).

The Python source is shallowly embedded.  Directory walks (`os.walk`)
become explicit lists of `(root, files)` pairs in traversal order; a file
read that may raise becomes an `Option` content; each Python helper is
translated as a Lean function.  Python string operations are modelled
structurally over `List Char` so that every definition evaluates by
kernel reduction (the scanned texts are ASCII, so per-character ASCII
lowercasing coincides with `str.lower`).
-/

namespace CoreShare

/-- ASCII lowercasing of one character, as Python `str.lower` acts on ASCII. -/
def lowerChar (c : Char) : Char :=
  if 65 ≤ c.toNat && c.toNat ≤ 90 then Char.ofNat (c.toNat + 32) else c

/-- Lowercase a whole string (as a character list). -/
def lowerList (l : List Char) : List Char := l.map lowerChar

/-- Boolean test that the first list is an initial segment of the second. -/
def isPrefixCheck : List Char → List Char → Bool
  | [], _ => true
  | _ :: _, [] => false
  | a :: as, b :: bs => a == b && isPrefixCheck as bs

/-- Python `sub in s`: substring containment. -/
def containsSub (sub : List Char) : List Char → Bool
  | [] => sub.isEmpty
  | c :: rest => isPrefixCheck sub (c :: rest) || containsSub sub rest

/-- Python `s.endswith(t)`. -/
def endsWithCheck (suf l : List Char) : Bool := isPrefixCheck suf.reverse l.reverse

/-- Split at the first occurrence of `sep`: `(before, after)`; `none` when
`sep` does not occur.  Used only with nonempty separators, matching the
Python `str.split` calls in the source. -/
def breakAt (sep : List Char) : List Char → Option (List Char × List Char)
  | [] => if sep.isEmpty then some ([], []) else none
  | c :: rest =>
    if isPrefixCheck sep (c :: rest) then some ([], (c :: rest).drop sep.length)
    else
      match breakAt sep rest with
      | none => none
      | some (pre, post) => some (c :: pre, post)

/-- Python `s.split(sep)[0]`: the text before the first occurrence of `sep`
(the whole string when `sep` is absent). -/
def beforeFirst (sep l : List Char) : List Char :=
  match breakAt sep l with
  | none => l
  | some (pre, _) => pre

/-- Python `s.split(sep)[1]`: the text between the first and second
occurrences of `sep`; `none` models the `IndexError` raised when `sep`
does not occur. -/
def secondField (sep l : List Char) : Option (List Char) :=
  match breakAt sep l with
  | none => none
  | some (_, post) => some (beforeFirst sep post)

/-- The whitespace characters Python `str.strip()` removes (the ones that
occur in the scanned texts). -/
def isSpaceChar (c : Char) : Bool := c == ' ' || c == '\t' || c == '\n' || c == '\r'

/-- Python `s.strip(...)`: drop characters satisfying `p` from both ends. -/
def stripEnds (p : Char → Bool) (l : List Char) : List Char :=
  ((l.dropWhile p).reverse.dropWhile p).reverse

/-- Python `f.readlines()`, modelled as newline splitting.  A trailing
newline yields one extra empty final line; no extraction rule matches an
empty line, and an out-of-range look-ahead and a look-ahead at an empty
line both abort the per-file loop the same way, so the outputs agree. -/
def splitLines : List Char → List (List Char)
  | [] => [[]]
  | c :: rest =>
    if c == '\n' then [] :: splitLines rest
    else
      match splitLines rest with
      | [] => [[c]]
      | l :: ls => (c :: l) :: ls

/-! ## File Pattern Cascade (`find_chatbot_module`) -/

/-- One directory entry of an `os.walk` over the repository: the directory
path and the files it holds.  A file whose `content` is `none` is
unreadable: `open`/`read` raises for it. -/
structure FileEntry where
  name : String
  content : Option String
  deriving DecidableEq

/-- The full `os.walk(REPO_DIR)` sequence, in traversal order. -/
abbrev Walk := List (String × List FileEntry)

/-- `os.path.join(root, file)` for the paths this script builds. -/
def ospj (root file : String) : String := root ++ "/" ++ file

/-- The exact-name candidate list `patterns` from `find_chatbot_module`. -/
def patterns : List String :=
  ["cori.py", "chatbot.py", "bot.py", "chat_with_cori.py", "assistant.py",
   "ai_chat.py", "conversation.py", "dialogue.py", "chat_service.py"]

/-- Tier 1 within one directory: `for pattern in patterns: if pattern in files`. -/
def tier1Dir (root : String) (files : List FileEntry) : Option String :=
  patterns.findSome? fun p =>
    if files.any (fun f => f.name == p) then some (ospj root p) else none

/-- Tier 1 (exact name match) over the whole walk. -/
def tier1 (walk : Walk) : Option String :=
  walk.findSome? fun e => tier1Dir e.1 e.2

/-- Tier 2 within one directory: the first `.py` file whose lowercased name
contains `chat`, `cori` or `bot`. -/
def tier2Dir (root : String) (files : List FileEntry) : Option String :=
  files.findSome? fun f =>
    if endsWithCheck ".py".data f.name.data &&
        (containsSub "chat".data (lowerList f.name.data) ||
         containsSub "cori".data (lowerList f.name.data) ||
         containsSub "bot".data (lowerList f.name.data)) then
      some (ospj root f.name)
    else none

/-- Tier 2 (fuzzy name match) over the whole walk. -/
def tier2 (walk : Walk) : Option String :=
  walk.findSome? fun e => tier2Dir e.1 e.2

/-- Tier 3 for one file: open the `.py` file (a raised read is swallowed by
the `except: pass` and counts as no match) and look for the target phrases
in the lowercased content. -/
def tier3File (root : String) (f : FileEntry) : Option String :=
  if !endsWithCheck ".py".data f.name.data then none
  else
    match f.content with
    | none => none
    | some c =>
      if containsSub "chat with cori".data (lowerList c.data) ||
          containsSub "cori chatbot".data (lowerList c.data) then
        some (ospj root f.name)
      else none

/-- Tier 3 within one directory. -/
def tier3Dir (root : String) (files : List FileEntry) : Option String :=
  files.findSome? fun f => tier3File root f

/-- Tier 3 (content grep) over the whole walk. -/
def tier3 (walk : Walk) : Option String :=
  walk.findSome? fun e => tier3Dir e.1 e.2

/-- `find_chatbot_module`: the three-tier cascade.  `repoExists` models the
`os.path.exists(REPO_DIR)` guard. -/
def find_chatbot_module (repoExists : Bool) (walk : Walk) : Option String :=
  if repoExists = false then none
  else
    match tier1 walk with
    | some p => some p
    | none =>
      match tier2 walk with
      | some p => some p
      | none => tier3 walk

/-! ## Symbol Resolver (`find_api_function`) -/

/-- One module attribute: its name and whether `callable(...)` holds on it.
A loaded module is a list of attributes in definition (insertion) order. -/
structure PyAttr where
  name : String
  isCallable : Bool
  deriving DecidableEq

/-- The `function_candidates` priority list of `find_api_function`. -/
def function_candidates : List String :=
  ["chat", "process_message", "get_response", "handle_message",
   "generate_response", "answer", "respond", "process_chat",
   "chat_with_cori", "cori_response", "send_message"]

/-- `getattr`/`hasattr` lookup: module attribute names are unique, so
first-match lookup agrees with the module dictionary. -/
def getattrOf (module : List PyAttr) (n : String) : Option PyAttr :=
  module.find? fun a => a.name == n

/-- Pass 1 of `find_api_function`: scan the priority list in order and
return the first name that is present and callable. -/
def pass1 (module : List PyAttr) : Option PyAttr :=
  function_candidates.findSome? fun fn =>
    match getattrOf module fn with
    | none => none
    | some a => if a.isCallable then some a else none

/-- Python string `<=` on ASCII text: lexicographic by code point. -/
def strLe (a b : List Char) : Bool :=
  match a, b with
  | [], _ => true
  | _ :: _, [] => false
  | c :: as, d :: bs =>
    if c.toNat < d.toNat then true
    else if d.toNat < c.toNat then false
    else strLe as bs

/-- Insert into a sorted list of names (ascending). -/
def insertSorted (s : String) : List String → List String
  | [] => [s]
  | t :: ts => if strLe s.data t.data then s :: t :: ts else t :: insertSorted s ts

/-- Python `dir(module)`: the attribute names in sorted order.  (The real
`dir` also lists dunder attributes; they begin with an underscore and
Pass 2 skips them, so they are omitted.) -/
def dirNames (module : List PyAttr) : List String :=
  (module.map fun a => a.name).foldr insertSorted []

/-- Python `name.startswith(c)` for a single character. -/
def startsWithChar (c : Char) : List Char → Bool
  | [] => false
  | d :: _ => d == c

/-- The Pass-2 keyword set of `find_api_function`. -/
def apiKeywords : List String := ["chat", "message", "response", "cori"]

/-- Pass 2 of `find_api_function`: walk `dir(module)`, skip private names,
and return the first callable attribute whose lowercased name contains an
API keyword. -/
def pass2 (module : List PyAttr) : Option PyAttr :=
  (dirNames module).findSome? fun an =>
    if startsWithChar '_' an.data then none
    else
      match getattrOf module an with
      | none => none
      | some a =>
        if a.isCallable &&
            apiKeywords.any (fun k => containsSub k.data (lowerList an.data)) then
          some a
        else none

/-- `find_api_function`: Pass 1, then Pass 2. -/
def find_api_function (module : List PyAttr) : Option PyAttr :=
  match pass1 module with
  | some a => some a
  | none => pass2 module

/-- The Pass-2 eligibility test, as a single predicate (non-private,
callable, keyword-bearing name). -/
def apiGood (a : PyAttr) : Bool :=
  !startsWithChar '_' a.name.data && a.isCallable &&
    apiKeywords.any fun k => containsSub k.data (lowerList a.name.data)

/-! ## Adaptive Invocation Engine (`try_chatbot_function`) -/

/-- The outcome of calling the resolved function under one calling
convention: a returned response, or a raised exception message. -/
inductive CallResult where
  | ok (resp : String)
  | err (msg : String)
  deriving DecidableEq

/-- The inner `for i, pattern in enumerate(try_patterns)` loop for one
message, over the remaining 1-based convention indices.  Returns the
attempts made (message, convention), the successful response if any, and
the error logged when the last convention fails. -/
def runConventions (call : String → Nat → CallResult) (msg : String) :
    List Nat → List (String × Nat) × Option String × Option String
  | [] => ([], none, none)
  | i :: rest =>
    match call msg i with
    | CallResult.ok r => ([(msg, i)], some r, none)
    | CallResult.err e =>
      if rest.isEmpty then ([(msg, i)], none, some e)
      else
        let p := runConventions call msg rest
        ((msg, i) :: p.1, p.2.1, p.2.2)

/-- `try_chatbot_function`: the outer message loop.  Returns the full
attempt log, the `success` flag the Python function returns, and the last
logged all-conventions-failed error. -/
def try_chatbot_function (call : String → Nat → CallResult) :
    List String → List (String × Nat) × Bool × Option String
  | [] => ([], false, none)
  | m :: ms =>
    let p := runConventions call m [1, 2, 3, 4, 5]
    match p.2.1 with
    | some _ => (p.1, true, none)
    | none =>
      let q := try_chatbot_function call ms
      (p.1 ++ q.1, q.2.1, (q.2.2).orElse fun _ => p.2.2)

/-- Every (message, convention) pair in message-then-convention order. -/
def allAttempts : List String → List (String × Nat)
  | [] => []
  | m :: ms => ([1, 2, 3, 4, 5].map fun i => (m, i)) ++ allAttempts ms

/-- The last element of a list, if any. -/
def lastElem : List String → Option String
  | [] => none
  | [m] => some m
  | _ :: m :: ms => lastElem (m :: ms)

/-! ## Static Route Extractor (`test_flask_endpoints`) -/

/-- The first filter of `test_flask_endpoints`: the lowercased file content
must contain a Flask import marker and one of `chat`, `cori`, `bot`. -/
def flaskAppFile (c : List Char) : Bool :=
  (containsSub "from flask import".data (lowerList c) ||
   containsSub "import flask".data (lowerList c)) &&
  (containsSub "chat".data (lowerList c) ||
   containsSub "cori".data (lowerList c) ||
   containsSub "bot".data (lowerList c))

/-- The `app_files` collection loop: every readable `.py` file of the walk
that passes `flaskAppFile`, with its joined path and raw content.  An
unreadable file is skipped by the `except: pass`. -/
def appFiles (walk : Walk) : List (String × List Char) :=
  walk.flatMap fun e =>
    e.2.filterMap fun f =>
      if !endsWithCheck ".py".data f.name.data then none
      else
        match f.content with
        | none => none
        | some c => if flaskAppFile c.data then some (ospj e.1 f.name, c.data) else none

/-- The per-line match test: a routing decorator marker and a domain
keyword, both on the same (lowercased) line. -/
def lineMatches (l : List Char) : Bool :=
  (containsSub "@app.route".data (lowerList l) ||
   containsSub "@blueprint.route".data (lowerList l)) &&
  (containsSub "chat".data (lowerList l) ||
   containsSub "message".data (lowerList l) ||
   containsSub "cori".data (lowerList l))

/-- `line.split("route(")[1].split(")")[0].strip().strip("'").strip('"')`;
`none` models the `IndexError` when `route(` is absent from the raw line. -/
def extractRoute (l : List Char) : Option String :=
  match secondField "route(".data l with
  | none => none
  | some seg =>
    some (String.mk (stripEnds (fun c => c == Char.ofNat 34)
      (stripEnds (fun c => c == Char.ofNat 39)
        (stripEnds isSpaceChar (beforeFirst ")".data seg)))))

/-- `func_line.split("def ")[1].split("(")[0].strip()`; `none` models the
`IndexError` when `def ` is absent. -/
def extractFuncName (l : List Char) : Option String :=
  match secondField "def ".data l with
  | none => none
  | some seg => some (String.mk (stripEnds isSpaceChar (beforeFirst "(".data seg)))

/-- The per-file extraction loop of `test_flask_endpoints`.  Each produced
triple is (route, handler name, file path).  The whole loop body runs in
one `try`, so the first raised slicing step ends the file's loop while
keeping the triples already appended. -/
def extractLoop (fp : String) : List (List Char) → List (String × String × String)
  | [] => []
  | line :: rest =>
    if lineMatches line = false then extractLoop fp rest
    else
      match extractRoute line with
      | none => []
      | some rt =>
        match rest with
        | [] => []
        | nextLine :: _ =>
          match extractFuncName (stripEnds isSpaceChar nextLine) with
          | none => []
          | some fn => (rt, fn, fp) :: extractLoop fp rest

/-- The `chatbot_endpoints` list built by `test_flask_endpoints`. -/
def chatbot_endpoints (walk : Walk) : List (String × String × String) :=
  (appFiles walk).flatMap fun pf => extractLoop pf.1 (splitLines pf.2)

/-- `test_flask_endpoints`: true exactly when at least one endpoint was
extracted (an empty `app_files` list returns false with no extraction). -/
def test_flask_endpoints (walk : Walk) : Bool :=
  !(chatbot_endpoints walk).isEmpty

/-! ## Orchestrator (`main`) -/

/-- The environment one run of `main` observes: whether `REPO_DIR` exists,
the walk of the repository, the result of dynamically loading a candidate
path (`none` = `load_module_from_path` returned `None`), the behaviour of
each module function under each (message, convention) call, and the
optional `--message` argument. -/
structure Env where
  repoExists : Bool
  walk : Walk
  load : String → Option (List PyAttr)
  call : String → String → Nat → CallResult
  extraMessage : Option String

/-- The built-in `test_messages` list of `main`. -/
def defaultMessages : List String :=
  ["Hello", "How are you?", "What services do you offer?",
   "Tell me about CoreShare", "Can you help me with a question?"]

/-- `test_messages` after the optional `--message` insertion at index 0. -/
def messagesWith : Option String → List String
  | none => defaultMessages
  | some m => m :: defaultMessages

/-- The pipeline stages `main` can pass through. -/
inductive Stage where
  | searching
  | loading
  | resolving
  | invoking
  | fallingBack
  deriving DecidableEq

/-- `main`, instrumented with the list of stages it passes through.  The
Boolean is the value `main` returns. -/
def mainTrail (env : Env) : Bool × List Stage :=
  if env.repoExists = false then (false, [])
  else
    match find_chatbot_module env.repoExists env.walk with
    | none => (test_flask_endpoints env.walk, [Stage.searching, Stage.fallingBack])
    | some path =>
      match env.load path with
      | none => (false, [Stage.searching, Stage.loading])
      | some module =>
        match find_api_function module with
        | none =>
          (test_flask_endpoints env.walk,
           [Stage.searching, Stage.loading, Stage.resolving, Stage.fallingBack])
        | some api =>
          if (try_chatbot_function (env.call api.name)
                (messagesWith env.extraMessage)).2.1 = true then
            (true, [Stage.searching, Stage.loading, Stage.resolving, Stage.invoking])
          else
            (test_flask_endpoints env.walk,
             [Stage.searching, Stage.loading, Stage.resolving, Stage.invoking,
              Stage.fallingBack])

/-- `sys.exit(0 if success else 1)`. -/
def exitCode (success : Bool) : Nat := if success then 0 else 1

/-! ## Concrete scenario environments -/

/-- A walk with an exact Tier-1 name in a subdirectory and a fuzzy Tier-2
name elsewhere. -/
def walkC1 : Walk :=
  [("CoreShare", [⟨"my_chat_tool.py", some ""⟩]),
   ("CoreShare/app", [⟨"chatbot.py", some ""⟩, ⟨"notes.txt", some ""⟩])]

/-- An environment whose candidate module fails to load. -/
def envLoadFail : Env :=
  { repoExists := true,
    walk := [("CoreShare", [⟨"cori.py", some "raise RuntimeError"⟩])],
    load := fun _ => none,
    call := fun _ _ _ => CallResult.err "",
    extraMessage := none }

/-- Scenario B exactly as the spec words it: one file holding only the
route decorator line and the handler line, with no Flask import. -/
def scenarioBEnv : Env :=
  { repoExists := true,
    walk := [("CoreShare", [⟨"server.py", some "@app.route(\"/chat\")\ndef respond():"⟩])],
    load := fun _ => none,
    call := fun _ _ _ => CallResult.err "",
    extraMessage := none }

/-- Scenario B with the Flask import marker the file filter requires. -/
def scenarioBFixedEnv : Env :=
  { repoExists := true,
    walk := [("CoreShare",
      [⟨"server.py", some "import flask\n@app.route(\"/chat\")\ndef respond():"⟩])],
    load := fun _ => none,
    call := fun _ _ _ => CallResult.err "",
    extraMessage := none }

/-- Scenario C: the repository directory exists but holds nothing. -/
def scenarioCEnv : Env :=
  { repoExists := true,
    walk := [("CoreShare", [])],
    load := fun _ => none,
    call := fun _ _ _ => CallResult.err "",
    extraMessage := none }

/-- A walk whose single file passes the Flask filter and declares a route. -/
def walkC10 : Walk :=
  [("CoreShare", [⟨"routes.py", some "import flask\n@app.route(\"/chat\")\ndef respond():"⟩])]

/-! ## Helper lemmas -/

/-- A directory holding a file named by a Tier-1 pattern makes `tier1Dir`
succeed. -/
theorem tier1Dir_isSome (root : String) (files : List FileEntry) (p : String)
    (hp : p ∈ patterns) (hf : ∃ f ∈ files, f.name = p) :
    (tier1Dir root files).isSome := by
  unfold tier1Dir
  rw [List.findSome?_isSome_iff]
  refine ⟨p, hp, ?_⟩
  obtain ⟨f, hfm, hname⟩ := hf
  have hany : files.any (fun f => f.name == p) = true := by
    rw [List.any_eq_true]
    exact ⟨f, hfm, by simp [hname]⟩
  simp [hany]

/-- Whatever `tier1` returns is the joined path of an exact pattern match
somewhere in the walk. -/
theorem tier1_spec (walk : Walk) (y : String) (h : tier1 walk = some y) :
    ∃ root files p, (root, files) ∈ walk ∧ p ∈ patterns ∧
      (∃ f ∈ files, f.name = p) ∧ y = ospj root p := by
  unfold tier1 at h
  obtain ⟨e, hew, he⟩ := List.exists_of_findSome?_eq_some h
  unfold tier1Dir at he
  obtain ⟨p, hpm, hp⟩ := List.exists_of_findSome?_eq_some he
  by_cases hc : e.2.any (fun f => f.name == p) = true
  · rw [if_pos hc] at hp
    rw [List.any_eq_true] at hc
    obtain ⟨f, hf, hfp⟩ := hc
    refine ⟨e.1, e.2, p, by simpa using hew, hpm, ⟨f, hf, by simpa using hfp⟩, ?_⟩
    exact (Option.some.injEq _ _).mp hp.symm
  · rw [if_neg hc] at hp
    exact absurd hp (by simp)

/-- Replace an unreadable file by the same file with empty readable
content (the name is untouched). -/
def scrubFile (f : FileEntry) : FileEntry :=
  ⟨f.name, some (f.content.getD "")⟩

/-- The walk in which every read failure has been replaced by an empty
readable file. -/
def readFailAsEmpty (walk : Walk) : Walk :=
  walk.map fun e => (e.1, e.2.map scrubFile)

theorem tier1Dir_scrub (root : String) (files : List FileEntry) :
    tier1Dir root (files.map scrubFile) = tier1Dir root files := by
  unfold tier1Dir
  congr 1
  funext p
  have hany : (files.map scrubFile).any (fun f => f.name == p) =
      files.any (fun f => f.name == p) := by
    induction files with
    | nil => rfl
    | cons f fs ih => simp [scrubFile, ih]
  rw [hany]

theorem tier2Dir_scrub (root : String) (files : List FileEntry) :
    tier2Dir root (files.map scrubFile) = tier2Dir root files := by
  induction files with
  | nil => rfl
  | cons f fs ih =>
    unfold tier2Dir at ih ⊢
    simp only [List.map_cons, List.findSome?_cons]
    rw [ih]
    rfl

theorem tier3File_scrub (root : String) (f : FileEntry) :
    tier3File root (scrubFile f) = tier3File root f := by
  rcases f with ⟨n, c⟩
  rcases c with _ | c
  · unfold tier3File scrubFile
    have h1 : containsSub "chat with cori".data (lowerList ("" : String).data) = false := by
      decide
    have h2 : containsSub "cori chatbot".data (lowerList ("" : String).data) = false := by
      decide
    simp [h1, h2]
  · rfl

theorem tier3Dir_scrub (root : String) (files : List FileEntry) :
    tier3Dir root (files.map scrubFile) = tier3Dir root files := by
  induction files with
  | nil => rfl
  | cons f fs ih =>
    unfold tier3Dir at ih ⊢
    simp only [List.map_cons, List.findSome?_cons]
    rw [ih, tier3File_scrub]

theorem tier1_scrub (walk : Walk) : tier1 (readFailAsEmpty walk) = tier1 walk := by
  unfold tier1 readFailAsEmpty
  induction walk with
  | nil => rfl
  | cons e es ih =>
    simp only [List.map_cons, List.findSome?_cons]
    rw [ih, tier1Dir_scrub]

theorem tier2_scrub (walk : Walk) : tier2 (readFailAsEmpty walk) = tier2 walk := by
  unfold tier2 readFailAsEmpty
  induction walk with
  | nil => rfl
  | cons e es ih =>
    simp only [List.map_cons, List.findSome?_cons]
    rw [ih, tier2Dir_scrub]

theorem tier3_scrub (walk : Walk) : tier3 (readFailAsEmpty walk) = tier3 walk := by
  unfold tier3 readFailAsEmpty
  induction walk with
  | nil => rfl
  | cons e es ih =>
    simp only [List.map_cons, List.findSome?_cons]
    rw [ih, tier3Dir_scrub]

/-- All five conventions failing for one message walks the whole pattern
list and logs the fifth error. -/
theorem runConventions_allFail (call : String → Nat → CallResult) (m : String)
    (h : ∀ i, ∃ e, call m i = CallResult.err e) :
    ∃ e5, call m 5 = CallResult.err e5 ∧
      runConventions call m [1, 2, 3, 4, 5] =
        ([(m, 1), (m, 2), (m, 3), (m, 4), (m, 5)], none, some e5) := by
  obtain ⟨e1, h1⟩ := h 1
  obtain ⟨e2, h2⟩ := h 2
  obtain ⟨e3, h3⟩ := h 3
  obtain ⟨e4, h4⟩ := h 4
  obtain ⟨e5, h5⟩ := h 5
  exact ⟨e5, h5, by simp [runConventions, h1, h2, h3, h4, h5]⟩

/-- Unfolding one all-failed message of the outer loop. -/
theorem try_step_fail (call : String → Nat → CallResult) (m : String)
    (ms : List String) (L : List (String × Nat)) (e5 : String)
    (hrun : runConventions call m [1, 2, 3, 4, 5] = (L, none, some e5)) :
    try_chatbot_function call (m :: ms) =
      (L ++ (try_chatbot_function call ms).1,
       (try_chatbot_function call ms).2.1,
       ((try_chatbot_function call ms).2.2).orElse fun _ => some e5) := by
  simp [try_chatbot_function, hrun]

/-! ## Claims -/

/-- C1: whenever some directory of the walk holds a file whose name
exactly equals a Tier-1 pattern, `find_chatbot_module` answers with the
exact tier — its result is the joined path of an exact pattern match and
equals `tier1`, so the fuzzy and content tiers are never consulted. -/
theorem exact_tier_priority (walk : Walk) (root₀ : String)
    (files₀ : List FileEntry) (p₀ : String) (hmem : (root₀, files₀) ∈ walk)
    (hp : p₀ ∈ patterns) (hf : ∃ f ∈ files₀, f.name = p₀) :
    ∃ root files p, (root, files) ∈ walk ∧ p ∈ patterns ∧
      (∃ f ∈ files, f.name = p) ∧
      find_chatbot_module true walk = tier1 walk ∧
      find_chatbot_module true walk = some (ospj root p) := by
  have hs : (tier1 walk).isSome := by
    unfold tier1
    rw [List.findSome?_isSome_iff]
    exact ⟨(root₀, files₀), hmem, tier1Dir_isSome root₀ files₀ p₀ hp hf⟩
  obtain ⟨y, hy⟩ := Option.isSome_iff_exists.mp hs
  obtain ⟨root, files, p, h1, h2, h3, h4⟩ := tier1_spec walk y hy
  refine ⟨root, files, p, h1, h2, h3, ?_, ?_⟩
  · simp [find_chatbot_module, hy]
  · simp [find_chatbot_module, hy, h4]

theorem exact_tier_priority_witness :
    ("CoreShare/app", [(⟨"chatbot.py", some ""⟩ : FileEntry), ⟨"notes.txt", some ""⟩]) ∈ walkC1 ∧
    ("chatbot.py" : String) ∈ patterns ∧
    (∃ f ∈ [(⟨"chatbot.py", some ""⟩ : FileEntry), ⟨"notes.txt", some ""⟩],
      FileEntry.name f = "chatbot.py") ∧
    (∃ root files p, (root, files) ∈ walkC1 ∧ p ∈ patterns ∧
      (∃ f ∈ files, f.name = p) ∧
      find_chatbot_module true walkC1 = tier1 walkC1 ∧
      find_chatbot_module true walkC1 = some (ospj root p)) :=
  ⟨by decide, by decide, by decide,
   exact_tier_priority walkC1 "CoreShare/app"
     [⟨"chatbot.py", some ""⟩, ⟨"notes.txt", some ""⟩] "chatbot.py"
     (by decide) (by decide) (by decide)⟩

/-- C9: a read failure in the cascade is swallowed and treated exactly as
a file with no matching content — replacing every unreadable file by an
empty readable one changes nothing, so the scan continues over the
remaining files and the cascade still returns its `Option` result (the
embedding is total: no outcome other than a candidate or `none` exists). -/
theorem unreadable_files_swallowed (repoExists : Bool) (walk : Walk) :
    find_chatbot_module repoExists (readFailAsEmpty walk) =
      find_chatbot_module repoExists walk := by
  unfold find_chatbot_module
  rw [tier1_scrub, tier2_scrub, tier3_scrub]

/-- C2: a callable that accepts the plain single-message call succeeds on
convention 1 for the first message; no other convention and no later
message is attempted, and the run reports exactly one success. -/
theorem convention_one_short_circuit (call : String → Nat → CallResult)
    (m r : String) (msgs : List String) (h : call m 1 = CallResult.ok r) :
    try_chatbot_function call (m :: msgs) = ([(m, 1)], true, none) := by
  simp [try_chatbot_function, runConventions, h]

theorem convention_one_short_circuit_witness :
    (fun (mm : String) (i : Nat) =>
      if i = 1 then CallResult.ok mm else CallResult.err "x") "Hello" 1 =
      CallResult.ok "Hello" ∧
    try_chatbot_function
      (fun mm i => if i = 1 then CallResult.ok mm else CallResult.err "x")
      ["Hello", "How are you?"] = ([("Hello", 1)], true, none) :=
  ⟨rfl, convention_one_short_circuit _ "Hello" "Hello" ["How are you?"] rfl⟩

/-- C3: a callable that raises for every convention and message makes
`try_chatbot_function` attempt each (message, convention) pair exactly
once, in message-then-convention order, return `false`, and log the error
of the very last attempt (last message, convention 5). -/
theorem all_fail_exhaustive_attempts (call : String → Nat → CallResult)
    (msgs : List String) (hfail : ∀ m i, ∃ e, call m i = CallResult.err e) :
    (try_chatbot_function call msgs).1 = allAttempts msgs ∧
    (try_chatbot_function call msgs).2.1 = false ∧
    ∀ m, lastElem msgs = some m →
      ∃ e, call m 5 = CallResult.err e ∧
        (try_chatbot_function call msgs).2.2 = some e := by
  induction msgs with
  | nil =>
    refine ⟨rfl, rfl, ?_⟩
    intro m hm
    simp [lastElem] at hm
  | cons m ms ih =>
    obtain ⟨e5, h5, hrun⟩ := runConventions_allFail call m (hfail m)
    obtain ⟨ih1, ih2, ih3⟩ := ih
    have hstep := try_step_fail call m ms _ e5 hrun
    refine ⟨?_, ?_, ?_⟩
    · rw [hstep]
      simp [allAttempts, ih1]
    · rw [hstep]
      simp [ih2]
    · intro mlast hml
      cases ms with
      | nil =>
        have hm : m = mlast := by simpa [lastElem] using hml
        subst hm
        refine ⟨e5, h5, ?_⟩
        rw [hstep]
        simp [try_chatbot_function, Option.orElse]
      | cons m2 ms2 =>
        have hml' : lastElem (m2 :: ms2) = some mlast := hml
        obtain ⟨e, he, hq⟩ := ih3 mlast hml'
        refine ⟨e, he, ?_⟩
        rw [hstep]
        simp [hq, Option.orElse]

theorem all_fail_exhaustive_attempts_witness :
    (∀ m i, ∃ e,
      (fun (_ : String) (_ : Nat) => CallResult.err "boom") m i = CallResult.err e) ∧
    ((try_chatbot_function (fun _ _ => CallResult.err "boom") ["hi"]).1 =
        allAttempts ["hi"] ∧
      (try_chatbot_function (fun _ _ => CallResult.err "boom") ["hi"]).2.1 = false ∧
      ∀ m, lastElem ["hi"] = some m →
        ∃ e, (fun (_ : String) (_ : Nat) => CallResult.err "boom") m 5 = CallResult.err e ∧
          (try_chatbot_function (fun _ _ => CallResult.err "boom") ["hi"]).2.2 = some e) :=
  ⟨fun _ _ => ⟨"boom", rfl⟩,
   all_fail_exhaustive_attempts _ ["hi"] (fun _ _ => ⟨"boom", rfl⟩)⟩

/-- C4: with the repository-existence precondition in place, a load
failure on the selected candidate sends `main` straight to the failed
verdict — the trail stops at LOADING, the static-route fallback is never
entered and the load is not retried; conversely, the only failed run whose
trail avoids the fallback stage is one whose candidate failed to load. -/
theorem load_failure_terminal (env : Env) (hrepo : env.repoExists = true) :
    (∀ p, find_chatbot_module env.repoExists env.walk = some p →
      env.load p = none →
      mainTrail env = (false, [Stage.searching, Stage.loading])) ∧
    ((mainTrail env).1 = false → Stage.fallingBack ∉ (mainTrail env).2 →
      ∃ p, find_chatbot_module env.repoExists env.walk = some p ∧
        env.load p = none) := by
  have hmain : mainTrail env =
      (match find_chatbot_module env.repoExists env.walk with
       | none => (test_flask_endpoints env.walk, [Stage.searching, Stage.fallingBack])
       | some path =>
         match env.load path with
         | none => (false, [Stage.searching, Stage.loading])
         | some module =>
           match find_api_function module with
           | none =>
             (test_flask_endpoints env.walk,
              [Stage.searching, Stage.loading, Stage.resolving, Stage.fallingBack])
           | some api =>
             if (try_chatbot_function (env.call api.name)
                   (messagesWith env.extraMessage)).2.1 = true then
               (true, [Stage.searching, Stage.loading, Stage.resolving, Stage.invoking])
             else
               (test_flask_endpoints env.walk,
                [Stage.searching, Stage.loading, Stage.resolving, Stage.invoking,
                 Stage.fallingBack])) := by
    unfold mainTrail
    rw [hrepo]
    simp
  constructor
  · intro p hp hl
    rw [hmain, hp]
    simp [hl]
  · intro hfalse hnofb
    rw [hmain] at hfalse hnofb
    rcases hfind : find_chatbot_module env.repoExists env.walk with _ | p <;>
      simp only [hfind] at hfalse hnofb
    · exact absurd hnofb (by simp)
    · rcases hload : env.load p with _ | module <;>
        simp only [hload] at hfalse hnofb
      · exact ⟨p, rfl, hload⟩
      · exfalso
        rcases hapi : find_api_function module with _ | api <;>
          simp only [hapi] at hfalse hnofb
        · exact absurd hnofb (by simp)
        · by_cases hsucc : (try_chatbot_function (env.call api.name)
              (messagesWith env.extraMessage)).2.1 = true
          · simp only [if_pos hsucc] at hfalse
            simp at hfalse
          · simp only [if_neg hsucc] at hnofb
            simp at hnofb

theorem load_failure_terminal_witness :
    envLoadFail.repoExists = true ∧
    mainTrail envLoadFail = (false, [Stage.searching, Stage.loading]) :=
  ⟨rfl, (load_failure_terminal envLoadFail rfl).1 "CoreShare/cori.py" (by decide) rfl⟩

/-- C5 counterexample: a module defining `zz_chat` first and `aa_chat`
second (neither name is in the Pass-1 priority list).  The claim says the
first-defined `zz_chat` is returned; the source iterates `dir(module)`,
which sorts names, so the alphabetically first `aa_chat` is returned. -/
theorem pass2_insertion_order_cex :
    find_api_function [⟨"zz_chat", true⟩, ⟨"aa_chat", true⟩] =
      some ⟨"aa_chat", true⟩ ∧
    ("aa_chat" : String) ≠ "zz_chat" :=
  ⟨by decide, by decide⟩

/-- C5 amended: Pass 2 enumerates attributes in sorted (alphabetical)
name order, because `dir(module)` sorts; for a module defining two
keyword-matching non-private callables with distinct names and no Pass-1
name, the alphabetically smaller name is returned, regardless of
definition order. -/
theorem pass2_alphabetical_order (a b : PyAttr) (hne : a.name ≠ b.name)
    (hp1 : pass1 [a, b] = none) (ha : apiGood a = true) (hb : apiGood b = true) :
    find_api_function [a, b] =
      some (if strLe a.name.data b.name.data then a else b) := by
  simp only [apiGood, Bool.and_eq_true, Bool.not_eq_true'] at ha hb
  obtain ⟨⟨haU, haC⟩, haK⟩ := ha
  obtain ⟨⟨hbU, hbC⟩, hbK⟩ := hb
  have hba : (a.name == b.name) = false := by
    simp [hne]
  unfold find_api_function
  rw [hp1]
  unfold pass2 dirNames
  by_cases hle : strLe a.name.data b.name.data = true
  · have hsort : ([a, b].map fun x => x.name).foldr insertSorted [] =
        [a.name, b.name] := by
      simp [insertSorted, hle]
    rw [hsort, if_pos hle]
    simp [List.findSome?_cons, haU, getattrOf, List.find?, haC, haK,
      -List.any_eq_true]
  · have hsort : ([a, b].map fun x => x.name).foldr insertSorted [] =
        [b.name, a.name] := by
      simp [insertSorted, hle]
    rw [hsort, if_neg hle]
    simp [List.findSome?_cons, hbU, getattrOf, List.find?, hba, hbC, hbK,
      -List.any_eq_true]

theorem pass2_alphabetical_order_witness :
    (PyAttr.name ⟨"zz_response", true⟩ ≠ PyAttr.name ⟨"aa_response", true⟩) ∧
    pass1 [⟨"zz_response", true⟩, ⟨"aa_response", true⟩] = none ∧
    apiGood ⟨"zz_response", true⟩ = true ∧
    apiGood ⟨"aa_response", true⟩ = true ∧
    find_api_function [⟨"zz_response", true⟩, ⟨"aa_response", true⟩] =
      some (if strLe "zz_response".data "aa_response".data then
        (⟨"zz_response", true⟩ : PyAttr) else ⟨"aa_response", true⟩) :=
  ⟨by decide, by decide, by decide, by decide,
   pass2_alphabetical_order ⟨"zz_response", true⟩ ⟨"aa_response", true⟩
     (by decide) (by decide) (by decide) (by decide)⟩

/-- C6 counterexample: a decorator line carrying no domain keyword whose
immediately following line is a keyword-bearing handler definition.  The
claim says a declaration is still recorded; the source checks the keyword
on the decorator line only, so nothing is extracted. -/
theorem same_line_keyword_cex :
    containsSub "@app.route".data (lowerList "@app.route(\"/x\")".data) = true ∧
    containsSub "chat".data (lowerList "def chat():".data) = true ∧
    extractLoop "f.py" ["@app.route(\"/x\")".data, "def chat():".data] = [] :=
  ⟨by decide, by decide, by decide⟩

/-- C6 amended: a declaration is recorded exactly when the decorator
marker and a domain keyword (`chat`, `message`, `cori`) occur on the same
line (and the lexical slices parse); the immediately following line only
supplies the handler name, and a line without the same-line keyword
contributes nothing. -/
theorem same_line_keyword_extraction (fp : String) (line nextLine : List Char)
    (rest : List (List Char)) (rt fn : String)
    (hm : lineMatches line = true) (hr : extractRoute line = some rt)
    (hn : extractFuncName (stripEnds isSpaceChar nextLine) = some fn) :
    extractLoop fp (line :: nextLine :: rest) =
      (rt, fn, fp) :: extractLoop fp (nextLine :: rest) ∧
    ∀ l2 r2, lineMatches l2 = false → extractLoop fp (l2 :: r2) = extractLoop fp r2 := by
  constructor
  · simp [extractLoop, hm, hr, hn]
  · intro l2 r2 h2
    simp [extractLoop, h2]

theorem same_line_keyword_extraction_witness :
    lineMatches "@app.route(\"/chat\")".data = true ∧
    extractRoute "@app.route(\"/chat\")".data = some "/chat" ∧
    extractFuncName (stripEnds isSpaceChar "def respond():".data) = some "respond" ∧
    extractLoop "app.py" ["@app.route(\"/chat\")".data, "def respond():".data] =
      ("/chat", "respond", "app.py") :: extractLoop "app.py" ["def respond():".data] :=
  ⟨by decide, by decide, by decide,
   (same_line_keyword_extraction "app.py" "@app.route(\"/chat\")".data
     "def respond():".data [] "/chat" "respond"
     (by decide) (by decide) (by decide)).1⟩

/-- C7 counterexample: scenario B exactly as the spec states it.  The file
holds only `@app.route("/chat")` and `def respond():`; it contains no
Flask import marker, so the fallback's file filter rejects it, no
RouteDeclaration is extracted, and the run ends FAILED with exit code 1 —
not SUCCEEDED as claimed. -/
theorem scenario_b_cex :
    find_chatbot_module scenarioBEnv.repoExists scenarioBEnv.walk = none ∧
    chatbot_endpoints scenarioBEnv.walk = [] ∧
    mainTrail scenarioBEnv = (false, [Stage.searching, Stage.fallingBack]) ∧
    exitCode (mainTrail scenarioBEnv).1 = 1 :=
  ⟨by decide, by decide, by decide, by decide⟩

/-- C7 amended: scenario B succeeds once the file also carries a
Flask-import marker (which the fallback's file filter requires): the SEARCHING
stage finds no module, the fallback extracts exactly one RouteDeclaration
`("/chat", "respond")` from the file, and the run ends SUCCEEDED. -/
theorem scenario_b_with_flask_import :
    find_chatbot_module scenarioBFixedEnv.repoExists scenarioBFixedEnv.walk = none ∧
    chatbot_endpoints scenarioBFixedEnv.walk =
      [("/chat", "respond", "CoreShare/server.py")] ∧
    mainTrail scenarioBFixedEnv = (true, [Stage.searching, Stage.fallingBack]) ∧
    exitCode (mainTrail scenarioBFixedEnv).1 = 0 :=
  ⟨by decide, by decide, by decide, by decide⟩

/-- C8: scenario C, an empty repository root.  SEARCHING finds no
candidate, the fallback finds no routes, the run ends FAILED with exit
code 1; and the exit code is 0 exactly for a succeeded run. -/
theorem scenario_c_empty_root :
    find_chatbot_module scenarioCEnv.repoExists scenarioCEnv.walk = none ∧
    chatbot_endpoints scenarioCEnv.walk = [] ∧
    mainTrail scenarioCEnv = (false, [Stage.searching, Stage.fallingBack]) ∧
    exitCode (mainTrail scenarioCEnv).1 = 1 ∧
    exitCode true = 0 ∧ exitCode false = 1 :=
  ⟨by decide, by decide, by decide, by decide, by decide, by decide⟩

/-- Every triple `extractLoop` produces carries the path it was given. -/
theorem extractLoop_path (fp : String) (lines : List (List Char))
    (x : String × String × String) (hx : x ∈ extractLoop fp lines) :
    x.2.2 = fp := by
  induction lines with
  | nil => simp [extractLoop] at hx
  | cons line rest ih =>
    unfold extractLoop at hx
    by_cases hm : lineMatches line = false
    · rw [if_pos hm] at hx
      exact ih hx
    · rw [if_neg hm] at hx
      rcases hrt : extractRoute line with _ | rt <;> simp only [hrt] at hx
      · exact absurd hx (by simp)
      · cases rest with
        | nil => exact absurd hx (by simp)
        | cons nl r2 =>
          rcases hfn : extractFuncName (stripEnds isSpaceChar nl) with _ | fn <;>
            simp only [hfn] at hx
          · exact absurd hx (by simp)
          · rcases List.mem_cons.mp hx with h | h
            · rw [h]
            · exact ih h

/-- Every entry of `appFiles` comes from a readable `.py` file of the walk
that passed the Flask filter. -/
theorem appFiles_spec (walk : Walk) (pf : String × List Char)
    (h : pf ∈ appFiles walk) :
    ∃ root files f c, (root, files) ∈ walk ∧ f ∈ files ∧
      pf.1 = ospj root f.name ∧ f.content = some c ∧
      flaskAppFile c.data = true := by
  unfold appFiles at h
  rw [List.mem_flatMap] at h
  obtain ⟨e, he, hf⟩ := h
  rw [List.mem_filterMap] at hf
  obtain ⟨f, hfm, hff⟩ := hf
  by_cases hpy : (!endsWithCheck ".py".data f.name.data) = true
  · rw [if_pos hpy] at hff
    exact absurd hff (by simp)
  · rw [if_neg hpy] at hff
    rcases hc : f.content with _ | c <;> simp only [hc] at hff
    · exact absurd hff (by simp)
    · by_cases hfl : flaskAppFile c.data = true
      · rw [if_pos hfl] at hff
        refine ⟨e.1, e.2, f, c, by simpa using he, hfm, ?_, hc, hfl⟩
        have := (Option.some.injEq _ _).mp hff
        rw [← this]
      · rw [if_neg hfl] at hff
        exact absurd hff (by simp)

/-- C10 (implicit): the fallback scan only inspects files whose lowercased
text contains a Flask import marker together with one of the keywords
`chat`, `cori`, `bot`; every extracted RouteDeclaration originates in such
a file, so a file lacking the import marker yields no declaration however
many route decorators it contains. -/
theorem fallback_requires_flask_marker (walk : Walk) (rt fn fp : String)
    (h : (rt, fn, fp) ∈ chatbot_endpoints walk) :
    ∃ root files f c, (root, files) ∈ walk ∧ f ∈ files ∧
      fp = ospj root f.name ∧ f.content = some c ∧
      (containsSub "from flask import".data (lowerList c.data) ||
        containsSub "import flask".data (lowerList c.data)) = true ∧
      (containsSub "chat".data (lowerList c.data) ||
        containsSub "cori".data (lowerList c.data) ||
        containsSub "bot".data (lowerList c.data)) = true := by
  unfold chatbot_endpoints at h
  rw [List.mem_flatMap] at h
  obtain ⟨pf, hpf, hx⟩ := h
  have hpath : fp = pf.1 := extractLoop_path pf.1 (splitLines pf.2) _ hx
  obtain ⟨root, files, f, c, h1, h2, h3, h4, h5⟩ := appFiles_spec walk pf hpf
  have h5' := h5
  simp only [flaskAppFile, Bool.and_eq_true] at h5'
  exact ⟨root, files, f, c, h1, h2, hpath.trans h3, h4, h5'.1, h5'.2⟩

theorem fallback_requires_flask_marker_witness :
    ("/chat", "respond", "CoreShare/routes.py") ∈ chatbot_endpoints walkC10 ∧
    (∃ root files f c, (root, files) ∈ walkC10 ∧ f ∈ files ∧
      ("CoreShare/routes.py" : String) = ospj root f.name ∧ f.content = some c ∧
      (containsSub "from flask import".data (lowerList c.data) ||
        containsSub "import flask".data (lowerList c.data)) = true ∧
      (containsSub "chat".data (lowerList c.data) ||
        containsSub "cori".data (lowerList c.data) ||
        containsSub "bot".data (lowerList c.data)) = true) :=
  ⟨by decide,
   fallback_requires_flask_marker walkC10 "/chat" "respond" "CoreShare/routes.py"
     (by decide)⟩

end CoreShare
